import Mathlib

/-!
Verification development for the soundterm metadata resolution and
deduplication engine.  The definitions below are a shallow embedding of the
Python sources:

  * `TrackMetadata` and `TrackMetadata.add` embed
    `src/soundterm/models/track.py` (class `TrackMetadata`, method `__add__`).
  * The regex machinery, `SmartParser.parse`, `parse_song_filename`,
    `Song.pathGet`/`Song.pathSet`, `registerSong`, `fingerprintResolutionStep`
    and `saveAlbumMetaFileState` embed `src/soundterm/models/song.py` and
    `src/soundterm/utils/filename_parser.py`.
  * The AcoustID candidate handling embeds
    `src/soundterm/models/acoustid.py`.

Conventions: Python `datetime` values are modelled as natural numbers
(`datetime.now()` becomes an explicit `now : Nat` argument, since the clock is
the only impure input of the merge); Python `float` scores and durations are
modelled as rationals (none of the verified properties depends on binary
rounding); Python exceptions become `Except`; Python `None` becomes
`Option.none`.
-/

/-- Python truthiness of an `Optional[str]`: `None` and `""` are falsy. -/
def pyTruthyOptStr : Option String → Bool
  | none => false
  | some s => s ≠ ""

/-- Python `a or b` on two strings (`""` is falsy). -/
def pyOrStr (a b : String) : String :=
  if a ≠ "" then a else b

/-- Python `a or b` on two `Optional[str]` values. -/
def pyOrOpt (a b : Option String) : Option String :=
  if pyTruthyOptStr a then a else b

/-- Python `str.strip()` (drop leading and trailing whitespace). -/
def pyStrip (s : String) : String :=
  String.mk (((s.toList.dropWhile Char.isWhitespace).reverse.dropWhile
    Char.isWhitespace).reverse)

/-- Helper for `pySplitComma`: accumulate characters up to each comma. -/
def splitCommaAux : List Char → List Char → List String
  | [], acc => [String.mk acc.reverse]
  | c :: cs, acc =>
      if c = ',' then String.mk acc.reverse :: splitCommaAux cs []
      else splitCommaAux cs (c :: acc)

/-- Python `s.split(",")`. -/
def pySplitComma (s : String) : List String :=
  splitCommaAux s.toList []

/-- Python `", ".join(xs)`. -/
def joinCommaSpace : List String → String
  | [] => ""
  | [x] => x
  | x :: y :: xs => x ++ ", " ++ joinCommaSpace (y :: xs)

/-- Python `",".join(xs)`. -/
def joinComma : List String → String
  | [] => ""
  | [x] => x
  | x :: y :: xs => x ++ "," ++ joinComma (y :: xs)

/-- Embedding of `soundterm.models.track.TrackMetadata` (track.py, lines
37-58), with the fields in their Python declaration order.  Timestamps are
naturals, floats are rationals, `PathLike` is `String`. -/
structure TrackMetadata where
  path : String
  track_number : Option Nat := none
  title : Option String := none
  artists : Option String := some ""
  releases : List String := []
  tags : List String := []
  duration : Option Rat := none
  fingerprint : Option String := none
  created_at : Nat := 0
  updated_at : Nat := 0
  tempo : Option Rat := none
  brightness : Option Rat := none
  mfcc_mean : Option (List Rat) := none
  key : Option String := none
  energy : Option Rat := none
  dynamic_range : Option Rat := none
  zcr : Option Rat := none
  valence : Option Rat := none
  sample_rate : Option Rat := none
  parsed_title : Option String := none
  parsed_track : Option Nat := none
deriving DecidableEq

/-- A fresh `TrackMetadata(path=p)` with all Python defaults
(`artists=""`, empty lists, everything else `None`; the `datetime.now()`
defaults of `created_at`/`updated_at` are modelled as `0`). -/
def emptyTM (p : String) : TrackMetadata := { path := p }

/-- `TrackMetadataValueConflictStrategy = Literal["self","other","update","raise"]`
(track.py, line 26). -/
inductive TrackMetadataValueConflictStrategy where
  | self
  | other
  | update
  | raiseStrategy
deriving DecidableEq

/-- `TrackMetadataListConflictStrategy = Literal["merge","update","raise"]`
(track.py, line 31). -/
inductive TrackMetadataListConflictStrategy where
  | merge
  | update
  | raiseStrategy
deriving DecidableEq

/-- The `ValueError`s that `TrackMetadata.__add__` can raise, tagged with the
data interpolated into the exception message. -/
inductive MergeError where
  | pathConflict (selfPath otherPath : String)
  | fingerprintConflict (selfFp otherFp : String)
  | valueConflict (fieldName : String)
  | listConflict (fieldName : String)
deriving DecidableEq

/-- Scalar-field branch of `TrackMetadata.__add__` (track.py, lines 218-238):
both sides non-`None` and unequal resolves per the value strategy (`self` and
`update` keep the left value, `other` keeps the right, `raise` fails naming
the field); otherwise the non-`None` side is taken. -/
def mergeScalar {α : Type} [DecidableEq α] (fieldName : String)
    (sv ov : Option α) (cs : TrackMetadataValueConflictStrategy) :
    Except MergeError (Option α) :=
  match sv, ov with
  | some x, some y =>
      if x ≠ y then
        match cs with
        | .self => .ok (some x)
        | .update => .ok (some x)
        | .other => .ok (some y)
        | .raiseStrategy => .error (.valueConflict fieldName)
      else .ok (some x)
  | some x, none => .ok (some x)
  | none, ov => .ok ov

/-- List-field branch of `TrackMetadata.__add__` (track.py, lines 204-216):
under `merge` or `update` the two lists are combined into
`list(set(self + other))`; under `raise` a `ValueError` is raised
unconditionally.  CPython's set iteration order is unspecified; the model
fixes first-occurrence order via `List.eraseDups`, and every theorem that
depends on the order of a combined list is stated about its set of elements
only. -/
def mergeList (fieldName : String) (sv ov : List String)
    (ls : TrackMetadataListConflictStrategy) :
    Except MergeError (List String) :=
  match ls with
  | .merge => .ok ((sv ++ ov).eraseDups)
  | .update => .ok ((sv ++ ov).eraseDups)
  | .raiseStrategy => .error (.listConflict fieldName)

/-- The `artists` special case of `TrackMetadata.__add__` (track.py, lines
191-203): each side is split on commas and stripped (falsy sides give `[]`),
the two lists are combined with `list(set(...))`, and the result is rejoined
with `", "`.  Note the combination is case-SENSITIVE exact string equality. -/
def mergeArtists (sv ov : Option String) : String :=
  let sa : List String :=
    match sv with
    | some s => if s ≠ "" then (pySplitComma s).map pyStrip else []
    | none => []
  let oa : List String :=
    match ov with
    | some s => if s ≠ "" then (pySplitComma s).map pyStrip else []
    | none => []
  joinCommaSpace ((sa ++ oa).eraseDups)

/-- `TrackMetadata.__add__` (track.py, lines 156-242) without the final
`datetime.now()` stamp: the path precondition, the fingerprint precondition,
then the per-field loop in `__fields__` (declaration) order.  Matched fields
take `self_value or other_value` (the timestamps, being always-truthy
datetimes, take the left side). -/
def TrackMetadata.addCore (a b : TrackMetadata)
    (cs : TrackMetadataValueConflictStrategy)
    (ls : TrackMetadataListConflictStrategy) :
    Except MergeError TrackMetadata :=
  if a.path ≠ b.path then
    .error (.pathConflict a.path b.path)
  else if pyTruthyOptStr a.fingerprint = true ∧ pyTruthyOptStr b.fingerprint = true
      ∧ a.fingerprint ≠ b.fingerprint then
    .error (.fingerprintConflict (a.fingerprint.getD "") (b.fingerprint.getD ""))
  else
    (mergeScalar "track_number" a.track_number b.track_number cs).bind fun track_number =>
    (mergeScalar "title" a.title b.title cs).bind fun title =>
    (mergeList "releases" a.releases b.releases ls).bind fun releases =>
    (mergeList "tags" a.tags b.tags ls).bind fun tags =>
    (mergeScalar "duration" a.duration b.duration cs).bind fun duration =>
    (mergeScalar "tempo" a.tempo b.tempo cs).bind fun tempo =>
    (mergeScalar "brightness" a.brightness b.brightness cs).bind fun brightness =>
    (mergeScalar "mfcc_mean" a.mfcc_mean b.mfcc_mean cs).bind fun mfcc_mean =>
    (mergeScalar "key" a.key b.key cs).bind fun key =>
    (mergeScalar "energy" a.energy b.energy cs).bind fun energy =>
    (mergeScalar "dynamic_range" a.dynamic_range b.dynamic_range cs).bind fun dynamic_range =>
    (mergeScalar "zcr" a.zcr b.zcr cs).bind fun zcr =>
    (mergeScalar "valence" a.valence b.valence cs).bind fun valence =>
    (mergeScalar "sample_rate" a.sample_rate b.sample_rate cs).bind fun sample_rate =>
    (mergeScalar "parsed_title" a.parsed_title b.parsed_title cs).bind fun parsed_title =>
    (mergeScalar "parsed_track" a.parsed_track b.parsed_track cs).bind fun parsed_track =>
    .ok {
      path := pyOrStr a.path b.path
      track_number := track_number
      title := title
      artists := some (mergeArtists a.artists b.artists)
      releases := releases
      tags := tags
      duration := duration
      fingerprint := pyOrOpt a.fingerprint b.fingerprint
      created_at := a.created_at
      updated_at := a.updated_at
      tempo := tempo
      brightness := brightness
      mfcc_mean := mfcc_mean
      key := key
      energy := energy
      dynamic_range := dynamic_range
      zcr := zcr
      valence := valence
      sample_rate := sample_rate
      parsed_title := parsed_title
      parsed_track := parsed_track }

/-- `TrackMetadata.__add__` in full: the merged record's `updated_at` is
always stamped to the merge time (`attrs["updated_at"] = datetime.now()`,
track.py lines 239-241), modelled by the explicit `now` argument. -/
def TrackMetadata.add (a b : TrackMetadata)
    (cs : TrackMetadataValueConflictStrategy)
    (ls : TrackMetadataListConflictStrategy) (now : Nat) :
    Except MergeError TrackMetadata :=
  match TrackMetadata.addCore a b cs ls with
  | .ok r => .ok { r with updated_at := now }
  | .error e => .error e

/-- Erase the merge-time stamp, for comparing merge results across clocks. -/
def stripStamp (r : TrackMetadata) : TrackMetadata := { r with updated_at := 0 }

/-- The artist entries encoded in a merge result: the `artists` string of a
successful result split on commas and stripped (an error has no entries). -/
def artistEntries (res : Except MergeError TrackMetadata) : List String :=
  match res with
  | .ok r =>
      match r.artists with
      | some s => (pySplitComma s).map pyStrip
      | none => []
  | .error _ => []

/-- Abstract syntax of the regular-expression fragment used by the repo's
filename patterns: character classes, sequencing, alternation, greedy
`*`, bounded greedy repetition, named capture groups and the end anchor
(`re.match` already anchors at the start). -/
inductive RE where
  | eps : RE
  | cls : (Char → Bool) → RE
  | seq : RE → RE → RE
  | alt : RE → RE → RE
  | star : RE → RE
  | rep : RE → Nat → Nat → RE
  | group : String → RE → RE
  | eos : RE

/-- Captured named groups, in first-capture order (Python's `groupdict`). -/
def Caps := List (String × String)
deriving DecidableEq

/-- Record a group capture, replacing an earlier capture of the same name
(Python keeps the last match of each group). -/
def setCap : Caps → String → String → Caps
  | [], n, v => [(n, v)]
  | (k, w) :: rest, n, v =>
      if k = n then (n, v) :: rest else (k, w) :: setCap rest n v

/-- Size bound used to compute sufficient matcher fuel. -/
def reSize : RE → Nat
  | .eps => 1
  | .cls _ => 1
  | .seq a b => 1 + reSize a + reSize b
  | .alt a b => 1 + reSize a + reSize b
  | .star a => 1 + reSize a
  | .rep a m n => 1 + reSize a + m + n
  | .group _ a => 1 + reSize a
  | .eos => 1

/-- Fuelled backtracking matcher in continuation-passing style, implementing
CPython `re` semantics for this fragment: alternatives are tried left first,
`*` and `{m,n}` prefer the longest repetition, repetition of an
empty-width match is cut off, and the first overall success wins. -/
def reM : Nat → RE → List Char → Caps →
    (List Char → Caps → Option Caps) → Option Caps
  | 0, _, _, _, _ => none
  | Nat.succ fuel, r, s, caps, k =>
    match r with
    | .eps => k s caps
    | .cls p =>
        match s with
        | [] => none
        | c :: rest => if p c then k rest caps else none
    | .seq r₁ r₂ => reM fuel r₁ s caps fun s' caps' => reM fuel r₂ s' caps' k
    | .alt r₁ r₂ =>
        match reM fuel r₁ s caps k with
        | some res => some res
        | none => reM fuel r₂ s caps k
    | .star r₁ =>
        match reM fuel r₁ s caps (fun s' caps' =>
            if s'.length < s.length then reM fuel (.star r₁) s' caps' k
            else k s' caps') with
        | some res => some res
        | none => k s caps
    | .rep r₁ m n =>
        match m with
        | Nat.succ m' =>
            reM fuel r₁ s caps fun s' caps' => reM fuel (.rep r₁ m' (n - 1)) s' caps' k
        | 0 =>
            match n with
            | 0 => k s caps
            | Nat.succ n' =>
                match reM fuel r₁ s caps (fun s' caps' =>
                    if s'.length < s.length then reM fuel (.rep r₁ 0 n') s' caps' k
                    else k s' caps') with
                | some res => some res
                | none => k s caps
    | .group name r₁ =>
        reM fuel r₁ s caps fun s' caps' =>
          k s' (setCap caps' name (String.mk (s.take (s.length - s'.length))))
    | .eos =>
        match s with
        | [] => k s caps
        | _ :: _ => none

/-- Fuel that bounds the matcher's recursion depth for a given pattern and
input (each `star`/`rep` iteration consumes input, so depth is bounded by the
pattern size times the input length). -/
def reFuel (r : RE) (s : List Char) : Nat :=
  (reSize r + 2) * (s.length + 2) + 1

/-- Index of the last `.` in a character list, if any. -/
def rfindDot (cs : List Char) : Option Nat :=
  ((List.range cs.length).filter fun i => cs.getD i ' ' = '.').getLast?

/-- `pathlib.Path(filename).stem`: the name without its final suffix.  A
suffix exists only when the last dot is neither the first nor the last
character (CPython: `0 < i < len(name) - 1`).  Inputs here are plain file
names without directory separators, as in the repository's call sites. -/
def stem (filename : String) : String :=
  let cs := filename.toList
  match rfindDot cs with
  | some i => if 0 < i ∧ i < cs.length - 1 then String.mk (cs.take i) else filename
  | none => filename

namespace SmartParser

/-- `SmartParser.parse` (filename_parser.py, lines 58-96): strip the
extension, then `re.match` the pattern against the stem — anchored at the
start only; the match need not reach the end of the stem.  On success the
named-group dictionary is returned; on failure `None`.  The trailing
type-casting loop applies only to `{name:type}` brace templates; the
repository's album patterns are plain regexes, for which `re.findall` yields
no tags and the loop is a no-op, so the model omits it. -/
def parse (template : RE) (filename : String) : Option Caps :=
  let name_only := (stem filename).toList
  reM (reFuel template name_only) template name_only [] fun _ caps => some caps

end SmartParser

/-- Modelled from the spec: the spec's reading of `parse`, in which the
pattern must match the FULL stem ("Returns none when the pattern does not
match the full stem (anchored match)").  Used only to compare the spec's
anchoring semantics with the code's `re.match` prefix semantics. -/
def specParseFullStem (template : RE) (filename : String) : Option Caps :=
  let name_only := (stem filename).toList
  reM (reFuel template name_only) template name_only [] fun s caps =>
    match s with
    | [] => some caps
    | _ :: _ => none

/-- `\d` — ASCII digits for the inputs at hand. -/
def isDigitChar (c : Char) : Bool := c.isDigit

/-- `\s` — whitespace. -/
def isSpaceChar (c : Char) : Bool := c.isWhitespace

/-- `.` — any character except a newline. -/
def anyChar (c : Char) : Bool := c ≠ '\n'

/-- A single literal character. -/
def lit (c : Char) : RE := .cls fun x => x = c

/-- A literal string, as a sequence of literal characters. -/
def litStr (s : String) : RE :=
  s.toList.foldr (fun c r => RE.seq (lit c) r) RE.eps

/-- The pattern from the spec's example,
`(?P<track>\d then 1-3 digits)(ws)*-(ws)*(?P<title>.+)$` — that is, the
regex written in the spec as caret, named group track of one to three
digits, optional whitespace, a dash, optional whitespace, named group title
matching one or more characters, dollar. -/
def trackTitlePattern : RE :=
  .seq (.group "track" (.rep (.cls isDigitChar) 1 3))
  (.seq (.star (.cls isSpaceChar))
  (.seq (lit '-')
  (.seq (.star (.cls isSpaceChar))
  (.seq (.group "title" (.seq (.cls anyChar) (.star (.cls anyChar))))
        .eos))))

/-- A pattern of the album-naming family with an album group: track number,
separator, named group album, separator, named group title, end anchor. -/
def trackAlbumTitlePattern : RE :=
  .seq (.group "track" (.rep (.cls isDigitChar) 1 3))
  (.seq (litStr " - ")
  (.seq (.group "album" (.seq (.cls anyChar) (.star (.cls anyChar))))
  (.seq (litStr " - ")
  (.seq (.group "title" (.seq (.cls anyChar) (.star (.cls anyChar))))
        .eos))))

deriving instance DecidableEq for Except

/-- The Python exceptions appearing in the modelled song.py and acoustid.py
paths. -/
inductive PyError where
  | typeError
  | nameError
  | valueError (msg : String)
  | validationError (fieldName : String)
deriving DecidableEq

/-- Python `int(s)` for a non-negative decimal string (the coercion pydantic
applies to a string arriving in an `int` field): every character must be a
digit, leading zeros are fine, anything else fails. -/
def pyStrToNat (s : String) : Option Nat :=
  if s ≠ "" ∧ s.toList.all Char.isDigit then
    some (s.toList.foldl (fun acc c => acc * 10 + (c.toNat - 48)) 0)
  else none

/-- Assoc-list lookup in a parsed named-group dictionary. -/
def capLookup : Caps → String → Option String
  | [], _ => none
  | (k, v) :: rest, n => if k = n then some v else capLookup rest n

/-- The loop body of `try_multiple_keys` (song.py, lines 23-27) for a dict
argument: return the value of the first present key, else `None`. -/
def firstKey (d : Caps) : List String → Option String
  | [] => none
  | k :: rest =>
      match capLookup d k with
      | some v => some v
      | none => firstKey d rest

/-- `try_multiple_keys(data, *keys)` (song.py, lines 23-27) as called on a
possibly-`None` `parsed_data`: `key in None` raises `TypeError`. -/
def try_multiple_keys (data : Option Caps) (keys : List String) :
    Except PyError (Option String) :=
  match data with
  | none => .error .typeError
  | some d => .ok (firstKey d keys)

/-- The record built by `parse_song_filename`'s success branch:
`TrackMetadata(path=filename, track_number=..., title=..., artists=...,
releases=releases)`; every other field keeps its Python default, except that
`artists` is exactly the looked-up value (passing `None` explicitly overrides
the `""` default). -/
def mkParsedTM (filename : String) (tn : Option Nat) (d : Caps)
    (releases : List String) : TrackMetadata :=
  { emptyTM filename with
      track_number := tn
      title := firstKey d ["title"]
      artists := firstKey d ["artist", "artists", "artistname", "artistnames"]
      releases := releases }

/-- `CollectionAlbumMetadata.parse_song_filename` (song.py, lines 253-286).
`albumTitle` is `self.title`; the album's compiled
`filename_metadata_pattern` is passed as an `RE`.  Faithful points: the
releases list is `[self.title]` whenever the title is truthy, and only a
falsy title consults the pattern's `album`/`release` captures (raising
`TypeError` through `try_multiple_keys` when parsing failed); a falsy
`parsed_data` (no match, or a match with no named groups) yields
`TrackMetadata(path=filename)`; the `track`/`trackno` capture is coerced to
an integer by pydantic validation (modelled by `String.toNat?`, failure being
a `ValidationError`). -/
def parse_song_filename (albumTitle : String) (pattern : Option RE)
    (filename : String) : Except PyError TrackMetadata :=
  match pattern with
  | none => .error (.valueError "filename_metadata_pattern is not set for this album")
  | some pat =>
    let parsed_data := SmartParser.parse pat filename
    let releases0 : List String := if albumTitle ≠ "" then [albumTitle] else []
    let step1 : Except PyError (List String) :=
      if releases0.isEmpty then
        match try_multiple_keys parsed_data ["album", "release"] with
        | .error e => .error e
        | .ok (some al) => .ok (releases0 ++ [al])
        | .ok none => .ok releases0
      else .ok releases0
    match step1 with
    | .error e => .error e
    | .ok releases =>
      match parsed_data with
      | none => .ok (emptyTM filename)
      | some d =>
        if d.isEmpty then .ok (emptyTM filename)
        else
          match firstKey d ["track", "trackno"] with
          | none => .ok (mkParsedTM filename none d releases)
          | some ts =>
              match pyStrToNat ts with
              | some n => .ok (mkParsedTM filename (some n) d releases)
              | none => .error (.validationError "track_number")

/-- The mutable state behind the `Song.path` property (song.py, lines
331-357): the `file_paths` set and the private `_selected_path`.  The Python
set is modelled as a duplicate-free list in iteration order, `next(iter(s))`
being the head; CPython leaves that order unspecified. -/
structure SongPathState where
  file_paths : List String
  selected_path : Option String := none
deriving DecidableEq

/-- The `Song.path` getter (song.py, lines 341-348): an empty set gives
`None`; otherwise a TRUTHY `_selected_path` still contained in the set is
returned, and anything else falls back to `next(iter(self.file_paths))`. -/
def Song.pathGet (s : SongPathState) : Option String :=
  if s.file_paths ≠ [] then
    match s.selected_path with
    | some p => if p ≠ "" ∧ p ∈ s.file_paths then some p else s.file_paths.head?
    | none => s.file_paths.head?
  else none

/-- Result of the `Song.path` setter: the state after the call plus whether a
`ValueError` was raised. -/
structure PathSetResult where
  state : SongPathState
  raised : Bool
deriving DecidableEq

/-- The `Song.path` setter (song.py, lines 350-357): a value contained in
`file_paths` becomes the selection; any other value raises `ValueError` and
mutates nothing. -/
def Song.pathSet (s : SongPathState) (v : String) : PathSetResult :=
  if v ∈ s.file_paths then { state := { s with selected_path := some v }, raised := false }
  else { state := s, raised := true }

/-- A cached song, as the fingerprint cache sees it: identifier, fingerprint
and the set of file paths (modelled as a duplicate-free list in insertion
order). -/
structure SongM where
  id : Nat
  fingerprint : String
  file_paths : List String
deriving DecidableEq

/-- Python `set.add`: append the path unless already present. -/
def addPath (l : List String) (p : String) : List String :=
  if p ∈ l then l else l ++ [p]

/-- Lookup in the `fingerprint_to_song_cache` dict (assoc list model). -/
def cacheLookup : List (String × SongM) → String → Option SongM
  | [], _ => none
  | (k, v) :: rest, fp => if k = fp then some v else cacheLookup rest fp

/-- Python dict assignment `cache[fp] = song`: replace or append. -/
def cacheUpdate : List (String × SongM) → String → SongM → List (String × SongM)
  | [], fp, s => [(fp, s)]
  | (k, v) :: rest, fp, s =>
      if k = fp then (fp, s) :: rest else (k, v) :: cacheUpdate rest fp s

/-- Outcome of one fingerprint-cache registration. -/
structure RegisterResult where
  song : SongM
  created : Bool
  cache : List (String × SongM)

/-- The fingerprint-cache step of `Song.from_file_path` (song.py, lines
463-485): a hit adds the path to the cached song's `file_paths` and returns
that same song; a miss constructs a new `Song` with a fresh id and this
single path.  Both branches end with
`fingerprint_to_song_cache[fingerprint] = song`. -/
def registerSong (cache : List (String × SongM)) (fingerprint path : String)
    (freshId : Nat) : RegisterResult :=
  match cacheLookup cache fingerprint with
  | some s =>
      let s' : SongM := { s with file_paths := addPath s.file_paths path }
      { song := s', created := false, cache := cacheUpdate cache fingerprint s' }
  | none =>
      let s : SongM := { id := freshId, fingerprint := fingerprint, file_paths := [path] }
      { song := s, created := true, cache := cacheUpdate cache fingerprint s }

/-- A run of resolutions: fold `registerSong` over `(fingerprint, path)`
requests, logging for each one its fingerprint and whether a new `Song` was
constructed. -/
def runResolve : List (String × SongM) → Nat → List (String × String) →
    List (String × Bool)
  | _, _, [] => []
  | cache, nextId, (fp, p) :: rest =>
      let r := registerSong cache fp p nextId
      (fp, r.created) :: runResolve r.cache (nextId + 1) rest

/-- How many events of the log constructed a new `Song` for fingerprint
`fp`. -/
def countCreated (fp : String) (events : List (String × Bool)) : Nat :=
  (events.filter fun e => e.1 = fp ∧ e.2 = true).length

/-- Outcome of the validation-and-fingerprint prefix of
`Song.from_file_path`. -/
inductive ResolveOutcome where
  | invalid
  | fatal
  | proceed (duration : Rat) (fingerprint : String)
deriving DecidableEq

/-- The validation-and-fingerprint prefix of `Song.from_file_path` (song.py,
lines 374-405): an empty file returns `None` (a skip); then the extractor
runs — `extract = none` covers `fingerprint_file` raising
`FingerprintGenerationError` as well as it returning a `None` fingerprint or
duration, all of which land in the same `except` handler.  On extractor
failure the ffmpeg probe decides: not audio means return `None` (skip),
audio means re-`raise` the extraction error. -/
def fingerprintResolutionStep (fileSize : Nat)
    (extract : Option (Rat × String)) (probeIsAudio : Bool) : ResolveOutcome :=
  if fileSize = 0 then .invalid
  else
    match extract with
    | some (d, fp) => .proceed d fp
    | none => if probeIsAudio then .fatal else .invalid

/-- The on-disk effect of `CollectionAlbumMetadata.save` (song.py, lines
238-251) on the directory's `album_meta.json`.  `serialized` is the result
of `self.model_dump_json(indent=4)` (`none` when it raises `TypeError`);
`previous` is the file's prior state (`none` when absent).  Success
overwrites the file; on `TypeError` the handler deletes the file whenever it
exists (`album_meta_path.unlink()`), so the prior contents are lost. -/
def saveAlbumMetaFileState (serialized : Option String)
    (previous : Option String) : Option String :=
  match serialized with
  | some s => some s
  | none => if previous.isSome then none else previous

/-- One recording dict of an AcoustID lookup result group, with the fields
`trackmetadata_from_fingerprint_results` reads: `id`, `title`, the artist
names and the release-group titles. -/
structure AcoustIDRecordingJson where
  rid : Option String
  title : Option String
  artistNames : List String
  releasegroupTitles : List String
deriving DecidableEq

/-- One result group of an AcoustID lookup response: a score and its
recordings. -/
structure AcoustIDResultJson where
  score : Rat
  recordings : List AcoustIDRecordingJson
deriving DecidableEq

/-- Number a block of recordings starting at `start`. -/
def numberFrom (start : Nat) : List AcoustIDRecordingJson →
    List (Nat × AcoustIDRecordingJson)
  | [] => []
  | r :: rs => (start, r) :: numberFrom (start + 1) rs

/-- The `count_to_recording` table built by the display loop of
`trackmetadata_from_fingerprint_results` (acoustid.py, lines 214-237):
result groups with `score < score_threshold` are skipped (`continue`), as
are groups without recordings; surviving recordings are numbered
consecutively starting from `count`. -/
def countToRecordingAux (threshold : Rat) (count : Nat) :
    List AcoustIDResultJson → List (Nat × AcoustIDRecordingJson)
  | [] => []
  | g :: rest =>
      if g.score < threshold then countToRecordingAux threshold count rest
      else if g.recordings.isEmpty then countToRecordingAux threshold count rest
      else numberFrom count g.recordings ++
        countToRecordingAux threshold (count + g.recordings.length) rest

/-- The full `count_to_recording` table (the loop starts with `count = 1`). -/
def count_to_recording (results : List AcoustIDResultJson) (threshold : Rat) :
    List (Nat × AcoustIDRecordingJson) :=
  countToRecordingAux threshold 1 results

/-- Python `str.isdigit()` for ASCII inputs. -/
def pyIsDigit (s : String) : Bool :=
  s ≠ "" && s.toList.all Char.isDigit

/-- Assoc lookup for the numbered recordings (`dict.get`). -/
def countLookup : List (Nat × AcoustIDRecordingJson) → Nat →
    Option AcoustIDRecordingJson
  | [], _ => none
  | (k, v) :: rest, n => if k = n then some v else countLookup rest n

/-- `AcoustIDLookupResults.trackmetadata_from_fingerprint_results`
(acoustid.py, lines 172-262), with the remote lookup's parsed `results` list
and the operator's one `input()` line as explicit arguments.  The local
`selected_recording` is assigned ONLY inside
`if recording_selection.isdigit():` within the non-empty-results branch;
the outer `Option` layer models boundness, and line 246 reading an unbound
local raises `NameError`.  A bound-but-`None` selection is falsy, so no
record is appended and the empty list is returned.  A selected recording
yields one `TrackMetadata` with `path=None` (modelled as `""`), the comma
join of the artist names, and the release-group titles. -/
def trackmetadata_from_fingerprint_results (results : List AcoustIDResultJson)
    (recording_selection : String) (score_threshold : Rat) :
    Except PyError (List TrackMetadata) :=
  let selected_recording : Option (Option AcoustIDRecordingJson) :=
    if results.isEmpty then none
    else if pyIsDigit recording_selection then
      some (countLookup (count_to_recording results score_threshold)
        ((pyStrToNat recording_selection).getD 0))
    else none
  match selected_recording with
  | none => .error .nameError
  | some none => .ok []
  | some (some rec) =>
      .ok [{ emptyTM "" with
               title := rec.title
               artists := some (joinComma rec.artistNames)
               releases := rec.releasegroupTitles }]

/-- Left operand of the spec's artists-merge example. -/
def aliceBobTM : TrackMetadata := { emptyTM "song.mp3" with artists := some "Alice, Bob" }

/-- Right operand of the spec's artists-merge example. -/
def bobTM : TrackMetadata := { emptyTM "song.mp3" with artists := some "bob" }

/-- A minimal recording dict for the disambiguation examples. -/
def recNamed (t : String) : AcoustIDRecordingJson :=
  { rid := some t, title := some t, artistNames := [], releasegroupTitles := [] }

/-- The spec's three-candidate example: result groups scoring 90, 75 and 50
against a threshold of 70 (scores scaled by 100 so that every constant is an
integer rational; only their order matters). -/
def threeGroups : List AcoustIDResultJson :=
  [{ score := 90, recordings := [recNamed "A"] },
   { score := 75, recordings := [recNamed "B"] },
   { score := 50, recordings := [recNamed "C"] }]

/-- A lone below-threshold result group. -/
def lowGroup : List AcoustIDResultJson := [{ score := 50, recordings := [recNamed "C"] }]

/-- A song-path state holding two paths, the second being the empty string. -/
def twoPathState : SongPathState := { file_paths := ["a", ""], selected_path := none }

/-- A one-entry fingerprint cache for the resolver witness. -/
def fpCache1 : List (String × SongM) :=
  [("fp0", { id := 3, fingerprint := "fp0", file_paths := ["p1"] })]

/-- Helper for the resolver claim: after a dict write the written key is
present. -/
theorem cacheLookup_update_self (c : List (String × SongM)) (fp : String) (s : SongM) :
    cacheLookup (cacheUpdate c fp s) fp = some s := by
  induction c with
  | nil => simp [cacheUpdate, cacheLookup]
  | cons kv rest ih =>
      obtain ⟨k, v⟩ := kv
      by_cases h : k = fp <;> simp [cacheUpdate, cacheLookup, h, ih]

/-- Helper: updating one key leaves lookups of other keys unchanged. -/
theorem cacheLookup_update_other (c : List (String × SongM)) (fp k' : String)
    (s : SongM) (h : k' ≠ fp) :
    cacheLookup (cacheUpdate c k' s) fp = cacheLookup c fp := by
  induction c with
  | nil => simp [cacheUpdate, cacheLookup, h]
  | cons kv rest ih =>
      obtain ⟨k, v⟩ := kv
      by_cases hk : k = k'
      · subst hk
        simp [cacheUpdate, cacheLookup, h]
      · simp [cacheUpdate, cacheLookup, hk, ih]

/-- Helper: how one event changes a fingerprint's creation count. -/
theorem countCreated_cons (fp fp' : String) (b : Bool) (evs : List (String × Bool)) :
    countCreated fp ((fp', b) :: evs)
      = (if fp' = fp ∧ b = true then 1 else 0) + countCreated fp evs := by
  by_cases h : fp' = fp ∧ b = true
  · simp [countCreated, List.filter_cons, h]
    omega
  · simp [countCreated, List.filter_cons, h]

/-- Helper: whatever branch `registerSong` takes, its cache contains the
fingerprint afterwards. -/
theorem registerSong_cache_mem (c : List (String × SongM)) (fp p : String) (i : Nat) :
    (cacheLookup (registerSong c fp p i).cache fp).isSome := by
  cases hs : cacheLookup c fp with
  | some s => simp [registerSong, hs, cacheLookup_update_self]
  | none => simp [registerSong, hs, cacheLookup_update_self]

/-- Helper: `registerSong` on an unrelated fingerprint does not disturb a
lookup. -/
theorem registerSong_cache_other (c : List (String × SongM)) (fp k p : String)
    (i : Nat) (h : k ≠ fp) :
    cacheLookup (registerSong c k p i).cache fp = cacheLookup c fp := by
  cases hs : cacheLookup c k with
  | some s => simp [registerSong, hs, cacheLookup_update_other _ _ _ _ h]
  | none => simp [registerSong, hs, cacheLookup_update_other _ _ _ _ h]

/-- Helper: once the cache holds a song for `fp`, no later resolution in the
run constructs a new song for `fp`. -/
theorem run_no_create_of_mem (reqs : List (String × String))
    (c : List (String × SongM)) (n : Nat) (fp : String)
    (h : (cacheLookup c fp).isSome) :
    countCreated fp (runResolve c n reqs) = 0 := by
  induction reqs generalizing c n with
  | nil => simp [runResolve, countCreated]
  | cons req rest ih =>
      obtain ⟨fp', p⟩ := req
      have htail : countCreated fp (runResolve (registerSong c fp' p n).cache (n + 1) rest) = 0 := by
        apply ih
        by_cases hf : fp' = fp
        · subst hf
          exact registerSong_cache_mem c fp' p n
        · rw [registerSong_cache_other c fp fp' p n hf]
          exact h
      by_cases hf : fp' = fp
      · subst hf
        obtain ⟨s, hs⟩ := Option.isSome_iff_exists.mp h
        have hcreated : (registerSong c fp' p n).created = false := by
          simp [registerSong, hs]
        rw [runResolve, countCreated_cons, hcreated, htail]
        simp
      · rw [runResolve, countCreated_cons, htail]
        simp [hf]

/-- Helper: along any run, at most one creation event per fingerprint. -/
theorem run_at_most_one (reqs : List (String × String))
    (c : List (String × SongM)) (n : Nat) (fp : String) :
    countCreated fp (runResolve c n reqs) ≤ 1 := by
  induction reqs generalizing c n with
  | nil => simp [runResolve, countCreated]
  | cons req rest ih =>
      obtain ⟨fp', p⟩ := req
      rw [runResolve, countCreated_cons]
      by_cases hf : fp' = fp
      · subst hf
        cases hs : cacheLookup c fp' with
        | some s =>
            have hcreated : (registerSong c fp' p n).created = false := by
              simp [registerSong, hs]
            rw [hcreated]
            have := ih (registerSong c fp' p n).cache (n + 1)
            simpa using this
        | none =>
            have htail : countCreated fp' (runResolve (registerSong c fp' p n).cache (n + 1) rest) = 0 := by
              exact run_no_create_of_mem rest _ (n + 1) fp' (registerSong_cache_mem c fp' p n)
            rw [htail]
            split <;> simp
      · have := ih (registerSong c fp' p n).cache (n + 1)
        simp [hf]
        exact this

/-- C1: within one run, at most one Song is ever created per fingerprint:
a resolution whose fingerprint is already a key of the fingerprint-to-Song
cache adds the new path to the cached Song's `file_paths` and returns that
same Song (same identifier, same fingerprint) without constructing a second
one, and along any sequence of resolutions the number of Song constructions
for any fixed fingerprint is at most one. -/
theorem at_most_one_song_per_fingerprint :
    (∀ (cache : List (String × SongM)) (fp p : String) (i : Nat) (s : SongM),
      cacheLookup cache fp = some s →
        (registerSong cache fp p i).created = false ∧
        (registerSong cache fp p i).song.id = s.id ∧
        (registerSong cache fp p i).song.fingerprint = s.fingerprint ∧
        (registerSong cache fp p i).song.file_paths = addPath s.file_paths p) ∧
    (∀ (cache : List (String × SongM)) (n : Nat) (reqs : List (String × String))
      (fp : String), countCreated fp (runResolve cache n reqs) ≤ 1) := by
  constructor
  · intro cache fp p i s h
    simp [registerSong, h]
  · intro cache n reqs fp
    exact run_at_most_one reqs cache n fp

/-- C1 witness: a concrete cache hit mutates rather than creates, and a run
that sees the same fingerprint twice creates at most once. -/
theorem at_most_one_song_per_fingerprint_witness :
    (registerSong fpCache1 "fp0" "p2" 9).created = false ∧
    (registerSong fpCache1 "fp0" "p2" 9).song.id = 3 ∧
    (registerSong fpCache1 "fp0" "p2" 9).song.file_paths = ["p1", "p2"] ∧
    countCreated "fp0" (runResolve [] 0 [("fp0", "p1"), ("fp0", "p2")]) ≤ 1 := by
  have h := at_most_one_song_per_fingerprint.1 fpCache1 "fp0" "p2" 9
    { id := 3, fingerprint := "fp0", file_paths := ["p1"] } (by decide)
  exact ⟨h.1, h.2.1, h.2.2.2, at_most_one_song_per_fingerprint.2 [] 0 _ "fp0"⟩

/-- C2: merging two TrackMetadata records fails with a path-conflict
`ValueError` whenever the paths differ, and (for equal paths) with a
fingerprint-conflict `ValueError` whenever both fingerprints are non-empty
and unequal; in both cases an error is raised and no merged record is
produced, for every policy pair and merge time. -/
theorem merge_conflict_preconditions (a b : TrackMetadata)
    (cs : TrackMetadataValueConflictStrategy)
    (ls : TrackMetadataListConflictStrategy) (now : Nat) :
    (a.path ≠ b.path →
      TrackMetadata.add a b cs ls now = .error (.pathConflict a.path b.path)) ∧
    (a.path = b.path → pyTruthyOptStr a.fingerprint = true →
      pyTruthyOptStr b.fingerprint = true → a.fingerprint ≠ b.fingerprint →
      TrackMetadata.add a b cs ls now
        = .error (.fingerprintConflict (a.fingerprint.getD "") (b.fingerprint.getD ""))) := by
  constructor
  · intro hp
    simp [TrackMetadata.add, TrackMetadata.addCore, hp]
  · intro hp ta tb hf
    simp [TrackMetadata.add, TrackMetadata.addCore, hp, ta, tb, hf]

/-- C2 witness: concrete path-conflict and fingerprint-conflict merges. -/
theorem merge_conflict_preconditions_witness :
    TrackMetadata.add (emptyTM "p") (emptyTM "q") .self .merge 0
      = .error (.pathConflict "p" "q") ∧
    TrackMetadata.add { emptyTM "p" with fingerprint := some "f1" }
        { emptyTM "p" with fingerprint := some "f2" } .self .merge 0
      = .error (.fingerprintConflict "f1" "f2") := by
  refine ⟨(merge_conflict_preconditions (emptyTM "p") (emptyTM "q") .self .merge 0).1
    (by decide), ?_⟩
  exact (merge_conflict_preconditions { emptyTM "p" with fingerprint := some "f1" }
    { emptyTM "p" with fingerprint := some "f2" } .self .merge 0).2
    rfl (by decide) (by decide) (by decide)

/-- C3 counterexample: merging artists "Alice, Bob" with "bob" under the
`merge` list policy keeps "bob" as its own entry — the union is
case-sensitive, so the result is NOT exactly the set containing Alice and
Bob. -/
theorem artists_merge_not_case_insensitive :
    "bob" ∈ artistEntries (TrackMetadata.add aliceBobTM bobTM .self .merge 0) ∧
    ¬("bob" = "Alice" ∨ "bob" = "Bob") := by decide

/-- C3 amended: merging artists "Alice, Bob" with "bob" under the `merge`
list policy yields exactly the case-sensitive union set of entries Alice,
Bob and bob (duplicates collapse only under exact string equality after
trimming), re-joined with comma-space. -/
theorem artists_merge_case_sensitive_union :
    (artistEntries (TrackMetadata.add aliceBobTM bobTM .self .merge 0)).Perm
      ["Alice", "Bob", "bob"] ∧
    (artistEntries (TrackMetadata.add aliceBobTM bobTM .self .merge 0)).Nodup ∧
    (TrackMetadata.add aliceBobTM bobTM .self .merge 0).toOption.map (fun r => r.artists)
      = some (some "Alice, Bob, bob") := by
  refine ⟨?_, by decide, by decide⟩
  have h : artistEntries (TrackMetadata.add aliceBobTM bobTM .self .merge 0)
      = ["Alice", "Bob", "bob"] := by decide
  rw [h]

/-- C4: for a fixed policy pair the merge is deterministic — the same
invocation yields the same result, and two invocations differing only in
the clock agree on everything except the stamped `updated_at` — and the
embedding is a pure function of its operands, which are returned
unchanged (the Python method never assigns into `self` or `other`; it
builds a fresh record from `attrs`). -/
theorem merge_deterministic_and_pure (a b : TrackMetadata)
    (cs : TrackMetadataValueConflictStrategy)
    (ls : TrackMetadataListConflictStrategy) (n1 n2 : Nat) :
    TrackMetadata.add a b cs ls n1 = TrackMetadata.add a b cs ls n1 ∧
    (TrackMetadata.add a b cs ls n1).map stripStamp
      = (TrackMetadata.add a b cs ls n2).map stripStamp := by
  refine ⟨rfl, ?_⟩
  cases h : TrackMetadata.addCore a b cs ls <;>
    simp [TrackMetadata.add, h, Except.map, stripStamp]

/-- C5 counterexample: `re.match` anchors at the start only, not over the
full stem — the one-character pattern a, which does not cover the stem
"ab", still matches "ab.mp3" and returns an (empty) group dictionary where
the claim requires `none`; the spec-modelled full-stem matcher indeed
returns `none` there. -/
theorem parse_not_full_stem_anchored :
    SmartParser.parse (lit 'a') "ab.mp3" = some [] ∧
    specParseFullStem (lit 'a') "ab.mp3" = none := by decide

/-- C5 amended: matching runs against the filename stem anchored at the
start (a match need not cover the whole stem unless the pattern itself ends
with the end anchor); the spec's concrete examples hold as stated: the
track-dash-title pattern maps "07 - Midnight.mp3" to track "07" and title
"Midnight" as uncoerced strings, and does not match "random.mp3". -/
theorem parse_stem_examples :
    SmartParser.parse trackTitlePattern "07 - Midnight.mp3"
      = some [("track", "07"), ("title", "Midnight")] ∧
    SmartParser.parse trackTitlePattern "random.mp3" = none ∧
    stem "07 - Midnight.mp3" = "07 - Midnight" := by decide

/-- C6: when the fingerprint extractor fails on a non-empty file, the
ffmpeg probe decides the outcome: not-audio yields the Invalid skip result
(`None`, not an exception), audio re-raises the extraction failure as a
fatal error that is not swallowed. -/
theorem extraction_failure_fallback (fileSize : Nat) (probe : Bool)
    (h : fileSize ≠ 0) :
    fingerprintResolutionStep fileSize none probe
      = (if probe then .fatal else .invalid) := by
  simp [fingerprintResolutionStep, h]

/-- C6 witness: both probe outcomes at a concrete non-empty file size. -/
theorem extraction_failure_fallback_witness :
    fingerprintResolutionStep 1 none false = .invalid ∧
    fingerprintResolutionStep 1 none true = .fatal := by
  exact ⟨extraction_failure_fallback 1 false (by decide),
    extraction_failure_fallback 1 true (by decide)⟩

/-- C7 (code bug): below-threshold result groups ARE discarded before any
recording is tabulated (the 50-scoring group contributes nothing against
threshold 70), but when no results come back at all the function does not
return an empty result — the local `selected_recording` is referenced before
assignment and a `NameError` propagates; the same happens for a non-empty
but fully filtered response whenever the operator's selection line is not a
digit (for instance the suggested plain Enter).  Only a digit selection
reaches the empty-result return. -/
theorem no_match_raises_name_error :
    count_to_recording threeGroups 70 = [(1, recNamed "A"), (2, recNamed "B")] ∧
    trackmetadata_from_fingerprint_results [] "" 70 = .error .nameError ∧
    trackmetadata_from_fingerprint_results lowGroup "" 70 = .error .nameError ∧
    trackmetadata_from_fingerprint_results lowGroup "1" 70 = .ok [] := by decide

/-- C8 counterexample: with a non-empty album context title, a pattern that
DOES capture an album field has that capture ignored — the release list of
the parsed record is exactly the context title, and the captured album name
appears nowhere in it. -/
theorem album_field_ignored :
    SmartParser.parse trackAlbumTitlePattern "01 - FileAlbum - Song.mp3"
      = some [("track", "01"), ("album", "FileAlbum"), ("title", "Song")] ∧
    parse_song_filename "CtxTitle" (some trackAlbumTitlePattern)
        "01 - FileAlbum - Song.mp3"
      = .ok (mkParsedTM "01 - FileAlbum - Song.mp3" (some 1)
          [("track", "01"), ("album", "FileAlbum"), ("title", "Song")] ["CtxTitle"]) ∧
    (mkParsedTM "01 - FileAlbum - Song.mp3" (some 1)
          [("track", "01"), ("album", "FileAlbum"), ("title", "Song")]
          ["CtxTitle"]).releases = ["CtxTitle"] ∧
    "FileAlbum" ∉ (["CtxTitle"] : List String) := by decide

/-- C8 amended: for a non-empty context title, `parse_song_filename` maps
the pattern's named fields into a TrackMetadata — track/trackno (coerced to
an integer) to the track number, title to title, artist/artists (also
artistname/artistnames) to the artist string — while the result's releases
equal the singleton context title REGARDLESS of any album/release capture
(that capture is consulted only when the context title is empty); a failed
parse, or a match that captures no fields, yields a mostly-empty
TrackMetadata with only the path set. -/
theorem parse_song_filename_mapping (title : String) (pat : RE)
    (filename : String) (ht : title ≠ "") :
    (SmartParser.parse pat filename = none →
      parse_song_filename title (some pat) filename = .ok (emptyTM filename)) ∧
    (SmartParser.parse pat filename = some [] →
      parse_song_filename title (some pat) filename = .ok (emptyTM filename)) ∧
    (∀ d, SmartParser.parse pat filename = some d → d ≠ [] →
      parse_song_filename title (some pat) filename
        = match firstKey d ["track", "trackno"] with
          | none => .ok (mkParsedTM filename none d [title])
          | some ts =>
              match pyStrToNat ts with
              | some n => .ok (mkParsedTM filename (some n) d [title])
              | none => .error (.validationError "track_number")) := by
  refine ⟨?_, ?_, ?_⟩
  · intro h
    simp [parse_song_filename, ht, h]
  · intro h
    simp [parse_song_filename, ht, h]
  · intro d hd hne
    cases d with
    | nil => exact absurd rfl hne
    | cons x xs => simp [parse_song_filename, ht, hd]

/-- C8 witness: the mapping theorem applied to the track-dash-title pattern
on "07 - Midnight.mp3" under context title "CtxTitle". -/
theorem parse_song_filename_mapping_witness :
    parse_song_filename "CtxTitle" (some trackTitlePattern) "07 - Midnight.mp3"
      = .ok (mkParsedTM "07 - Midnight.mp3" (some 7)
          [("track", "07"), ("title", "Midnight")] ["CtxTitle"]) := by
  have h := (parse_song_filename_mapping "CtxTitle" trackTitlePattern
    "07 - Midnight.mp3" (by decide)).2.2
    [("track", "07"), ("title", "Midnight")] (by decide) (by decide)
  exact h.trans (by decide)

/-- C9 (code bug): a successful save replaces the file with the new
serialization, but a serialization failure (`model_dump_json` raising
`TypeError`) makes the handler unlink the existing `album_meta.json`: the
previously persisted contents are destroyed, not preserved. -/
theorem save_failure_destroys_previous_state :
    saveAlbumMetaFileState (some "new") (some "old") = some "new" ∧
    saveAlbumMetaFileState none (some "old") = none ∧
    saveAlbumMetaFileState none none = none := by decide

/-- C10 counterexample: the getter guards the selection with Python
truthiness, not mere presence — after successfully selecting the
empty-string path (which IS a member of `file_paths`), the getter ignores
the selection and returns the set's first element instead. -/
theorem selected_empty_path_ignored :
    (Song.pathSet twoPathState "").raised = false ∧
    (Song.pathSet twoPathState "").state.selected_path = some "" ∧
    Song.pathGet (Song.pathSet twoPathState "").state = some "a" ∧
    some "a" ≠ (some "" : Option String) := by decide

/-- C10 amended: `Song.path` returns `None` exactly when `file_paths` is
empty, otherwise some element of `file_paths`; the explicitly selected path
is returned whenever it was set, is still present AND is non-empty (Python
truthiness); assigning a path not contained in `file_paths` raises
`ValueError` and leaves the state unchanged. -/
theorem path_property_contract (s : SongPathState) (v : String) :
    (Song.pathGet s = none ↔ s.file_paths = []) ∧
    (∀ p, Song.pathGet s = some p → p ∈ s.file_paths) ∧
    (∀ p, s.selected_path = some p → p ≠ "" → p ∈ s.file_paths →
      Song.pathGet s = some p) ∧
    (v ∉ s.file_paths → Song.pathSet s v = { state := s, raised := true }) := by
  obtain ⟨fps, sel⟩ := s
  refine ⟨?_, ?_, ?_, ?_⟩
  · cases fps with
    | nil => simp [Song.pathGet]
    | cons x xs =>
        cases sel with
        | none => simp [Song.pathGet]
        | some p =>
            simp [Song.pathGet]
            split <;> simp
  · intro p hp
    cases fps with
    | nil => simp [Song.pathGet] at hp
    | cons x xs =>
        cases sel with
        | none =>
            simp [Song.pathGet] at hp
            simp [← hp]
        | some q =>
            simp [Song.pathGet] at hp
            split at hp
            · rename_i hcond
              obtain rfl : q = p := Option.some.inj hp
              simpa using hcond.2
            · obtain rfl : x = p := Option.some.inj hp
              simp
  · intro p hsel hne hmem
    have hsel' : sel = some p := hsel
    have hmem' : p ∈ fps := hmem
    subst hsel'
    have hfps : fps ≠ [] := by
      intro hnil
      rw [hnil] at hmem'
      simp at hmem'
    simp [Song.pathGet, hfps, hne, hmem']
  · intro hv
    simp [Song.pathSet, hv]

/-- C10 witness: a present non-empty selection is honoured, and assigning an
absent path raises while preserving the state. -/
theorem path_property_contract_witness :
    Song.pathGet { file_paths := ["x"], selected_path := some "x" } = some "x" ∧
    Song.pathSet { file_paths := ["x"], selected_path := some "x" } "y"
      = { state := { file_paths := ["x"], selected_path := some "x" }, raised := true } := by
  exact ⟨(path_property_contract { file_paths := ["x"], selected_path := some "x" } "y").2.2.1
      "x" rfl (by decide) (by decide),
    (path_property_contract { file_paths := ["x"], selected_path := some "x" } "y").2.2.2
      (by decide)⟩
